import Mathlib

/-!
Verification of the pdf_checker_project repository sources.

The development shallowly embeds the four Python source files:
  * `pdf_checker_app/management/commands/update_pattern_header.py`
  * `manage.py`
  * `pdf_checker_app/admin.py`
  * `pdf_checker_app/tests/test_pdf_report.py` (whose view under test is
    modelled from the spec, since the view code is not among the sources)

Paths are lists of components, the filesystem is a pair of a directory set
and a file association list, the network is a function from URL to fetch
outcome, and the Django command's `handle` is a pure function returning the
produced stdout, the resulting filesystem, effect counters and any
propagated exception.
-/

namespace PdfChecker

/-! ## Filesystem model

A path is a list of components.  `parent` is `pathlib.Path.parent`
(dropping the last component).  The filesystem records the set of existing
directories and an association list from file path to content. -/

abbrev Path := List String

def parent (p : Path) : Path := p.dropLast

/-- All the directories `Path.mkdir(parents=True)` ensures exist for a path
`p`: every initial segment of `p`, from the root up to `p` itself. -/
def pathAncestors (p : Path) : List Path :=
  (List.range (p.length + 1)).map (fun k => p.take k)

structure FS where
  dirs : List Path
  files : List (Path × String)
deriving DecidableEq

/-- One directory creation with `exist_ok=True`: a no-op when the directory
already exists, otherwise the directory is added. -/
def addDir (fs : FS) (d : Path) : FS :=
  if d ∈ fs.dirs then fs else { fs with dirs := fs.dirs ++ [d] }

/-- `Path.mkdir(parents=True, exist_ok=True)`: create the directory and all
its missing ancestors. -/
def mkdirParents (fs : FS) (p : Path) : FS :=
  (pathAncestors p).foldl addDir fs

/-- Replace the binding for `p` in an association list, or append it. -/
def setAssoc : List (Path × String) → Path → String → List (Path × String)
  | [], p, c => [(p, c)]
  | (q, v) :: rest, p, c =>
      if q = p then (p, c) :: rest else (q, v) :: setAssoc rest p c

/-- `Path.write_text(content, encoding=utf-8)`: store `content` at `p`. -/
def write_text (fs : FS) (p : Path) (content : String) : FS :=
  { fs with files := setAssoc fs.files p content }

/-- Read a file's content, `none` when the file does not exist. -/
def readFile (fs : FS) (p : Path) : Option String :=
  (fs.files.find? (fun e => e.1 = p)).map (fun e => e.2)

/-! ## HTTP model (httpx)

`httpx.get` either completes with a `Response` or raises: transport errors
are `httpx.HTTPError` subclasses, anything else is a non-HTTP exception.
`Response.raise_for_status` raises `httpx.HTTPStatusError` (an `HTTPError`)
whenever the status code is not a 2xx success. -/

structure Response where
  status_code : Nat
  text : String
deriving DecidableEq

def is_success (r : Response) : Bool :=
  decide (200 ≤ r.status_code) && decide (r.status_code < 300)

inductive FetchOutcome
  | response (r : Response)
  | httpError (msg : String)
  | otherError (msg : String)
deriving DecidableEq

/-- The network: what `httpx.get` does at each URL. -/
abbrev Net := String → FetchOutcome

/-- Result of running a Python snippet: a value, or a raised exception
tagged with whether it is an `httpx.HTTPError`. -/
inductive PyResult (α : Type)
  | ok (a : α)
  | exn (isHTTP : Bool) (msg : String)
deriving DecidableEq

/-! ## update_pattern_header.py -/

/-- `fetch_pattern_header(url)`: perform the GET, call `raise_for_status`,
return `response.text`. -/
def fetch_pattern_header (net : Net) (url : String) : PyResult String :=
  match net url with
  | .response r =>
      if is_success r then .ok r.text
      else .exn true ("HTTPStatusError for status " ++ toString r.status_code)
  | .httpError m => .exn true m
  | .otherError m => .exn false m

/-- `resolve_target_path()`: three `.parent` steps up from the command file
(yielding the app directory), then down into the templates include. -/
def resolve_target_path (command_file : Path) : Path :=
  parent (parent (parent command_file)) ++
    ["pdf_checker_app_templates", "pdf_checker_app", "includes", "pattern_header.html"]

/-- `save_pattern_header(content, target_path)`: create the parent directory
tree, then write the content. -/
def save_pattern_header (content : String) (target_path : Path) (fs : FS) : FS :=
  write_text (mkdirParents fs (parent target_path)) target_path content

/-- A Python value as it may appear in the command's options dict for
`url`: absent (`None`), a string, or some non-string object. -/
inductive PyValue
  | pynone
  | str (s : String)
  | other
deriving DecidableEq

structure Options where
  url : PyValue
  dry_run : Bool
deriving DecidableEq

/-- `settings.PATTERN_HEADER_URL`, possibly absent. -/
structure Settings where
  PATTERN_HEADER_URL : Option String
deriving DecidableEq

/-- `getattr(settings, 'PATTERN_HEADER_URL', '')`. -/
def getPatternHeaderURL (s : Settings) : String :=
  s.PATTERN_HEADER_URL.getD ""

/-- `url_override = url_option if isinstance(url_option, str) else ''`. -/
def url_override (v : PyValue) : String :=
  match v with
  | .str s => s
  | _ => ""

/-- `url = url_override or getattr(settings, 'PATTERN_HEADER_URL', '')`:
Python `or` takes the right operand when the left is the empty string. -/
def effective_url (settings : Settings) (opts : Options) : String :=
  if url_override opts.url = "" then getPatternHeaderURL settings
  else url_override opts.url

/-- A line written to the command's stdout, with its `self.style` wrapper. -/
inductive StyledLine
  | plain (s : String)
  | styleError (s : String)
  | warning (s : String)
  | success (s : String)
deriving DecidableEq

/-- Observable outcome of `Command.handle`: the stdout lines in order, the
resulting filesystem, how many HTTP GETs and file writes were performed,
and any exception that propagated out uncaught. -/
structure HandleResult where
  stdout : List StyledLine
  fs : FS
  getCount : Nat
  writeCount : Nat
  uncaught : Option String
deriving DecidableEq

/-- `Command.handle`: resolve the URL (error out when empty), fetch
(catching only `httpx.HTTPError`), stop after a dry run, otherwise save. -/
def handle (settings : Settings) (net : Net) (opts : Options)
    (command_file : Path) (fs0 : FS) : HandleResult :=
  let url := effective_url settings opts
  if url = "" then
    { stdout := [.styleError "PATTERN_HEADER_URL not set in settings and --url not provided"],
      fs := fs0, getCount := 0, writeCount := 0, uncaught := none }
  else
    let dry_run := opts.dry_run
    let target_path := resolve_target_path command_file
    let out1 : List StyledLine := [.plain ("Fetching pattern header from: " ++ url)]
    match fetch_pattern_header net url with
    | .exn true m =>
        { stdout := out1 ++ [.styleError ("Failed to fetch: " ++ m)],
          fs := fs0, getCount := 1, writeCount := 0, uncaught := none }
    | .exn false m =>
        { stdout := out1, fs := fs0, getCount := 1, writeCount := 0, uncaught := some m }
    | .ok content =>
        let out2 := out1 ++ [.plain ("Fetched " ++ toString content.length ++ " characters")]
        if dry_run then
          { stdout := out2 ++ [.warning "Dry run - not saving"],
            fs := fs0, getCount := 1, writeCount := 0, uncaught := none }
        else
          { stdout := out2 ++
              [.success ("Saved to: " ++ String.intercalate "/" target_path)],
            fs := save_pattern_header content target_path fs0,
            getCount := 1, writeCount := 1, uncaught := none }

/-! ## manage.py -/

/-- The process environment: an association list of variable bindings. -/
abbrev Env := List (String × String)

def getEnv (env : Env) (k : String) : Option String :=
  (env.find? (fun e => e.1 = k)).map (fun e => e.2)

/-- `os.environ.setdefault(k, v)`: bind `k` to `v` only when `k` is unset. -/
def setdefault (env : Env) (k v : String) : Env :=
  if (getEnv env k).isSome then env else env ++ [(k, v)]

structure MainResult where
  env : Env
  executed_argv : List String
deriving DecidableEq

/-- `manage.py`'s `main()`: default the settings module, then delegate to
`execute_from_command_line(sys.argv)`. -/
def manage_main (env : Env) (argv : List String) : MainResult :=
  let env1 := setdefault env "DJANGO_SETTINGS_MODULE" "config.settings"
  { env := env1, executed_argv := argv }

/-! ## admin.py

The three `ModelAdmin` subclasses are declarative configuration; each is
embedded as a record of its class attributes, and `@admin.register`
contributes one entry to the admin site registry. -/

structure Fieldset where
  title : String
  fields : List String
  classes : List String := []
deriving DecidableEq

structure ModelAdminConfig where
  list_display : List String
  list_filter : List String
  search_fields : List String
  readonly_fields : List String
  fieldsets : List Fieldset
deriving DecidableEq

def PDFDocumentAdmin : ModelAdminConfig :=
  { list_display :=
      ["original_filename", "user_email", "file_size", "processing_status", "uploaded_at"],
    list_filter := ["processing_status", "uploaded_at"],
    search_fields :=
      ["original_filename", "user_email", "user_first_name", "user_last_name", "file_checksum"],
    readonly_fields := ["file_checksum", "file_size", "uploaded_at"],
    fieldsets :=
      [{ title := "File Information",
         fields := ["original_filename", "file_checksum", "file_size"] },
       { title := "User Information",
         fields := ["user_first_name", "user_last_name", "user_email", "user_groups"] },
       { title := "Status",
         fields := ["processing_status", "processing_error", "uploaded_at"] }] }

def VeraPDFResultAdmin : ModelAdminConfig :=
  { list_display :=
      ["pdf_document", "is_accessible", "validation_profile", "passed_checks",
       "failed_checks", "analyzed_at"],
    list_filter := ["is_accessible", "validation_profile", "analyzed_at"],
    search_fields := ["pdf_document__original_filename", "validation_profile"],
    readonly_fields := ["pdf_document", "raw_json", "analyzed_at", "verapdf_version"],
    fieldsets :=
      [{ title := "Document", fields := ["pdf_document"] },
       { title := "Analysis Results",
         fields := ["is_accessible", "validation_profile", "total_checks",
                    "passed_checks", "failed_checks"] },
       { title := "Metadata", fields := ["analyzed_at", "verapdf_version"] },
       { title := "Raw Data", fields := ["raw_json"], classes := ["collapse"] }] }

def OpenRouterSummaryAdmin : ModelAdminConfig :=
  { list_display :=
      ["pdf_document", "status", "model", "provider", "total_tokens", "cost", "completed_at"],
    list_filter := ["status", "provider", "model", "finish_reason", "completed_at"],
    search_fields :=
      ["pdf_document__original_filename", "openrouter_response_id", "provider",
       "model", "summary_text"],
    readonly_fields :=
      ["pdf_document", "openrouter_response_id", "raw_response_json", "requested_at",
       "completed_at", "openrouter_created_at", "prompt_tokens", "completion_tokens",
       "total_tokens", "cost"],
    fieldsets :=
      [{ title := "Document", fields := ["pdf_document"] },
       { title := "Summary", fields := ["summary_text", "prompt", "status", "error"] },
       { title := "OpenRouter Metadata",
         fields := ["openrouter_response_id", "provider", "model", "finish_reason"] },
       { title := "Usage & Cost",
         fields := ["prompt_tokens", "completion_tokens", "total_tokens", "cost"] },
       { title := "Timestamps",
         fields := ["requested_at", "completed_at", "openrouter_created_at"] },
       { title := "Raw Data", fields := ["raw_response_json"], classes := ["collapse"] }] }

/-- The admin site registry built by `admin.py`: the three
`@admin.register(...)` decorations, in file order, pairing each model name
with its `ModelAdmin` subclass. -/
def admin_registry : List (String × ModelAdminConfig) :=
  [("PDFDocument", PDFDocumentAdmin),
   ("VeraPDFResult", VeraPDFResultAdmin),
   ("OpenRouterSummary", OpenRouterSummaryAdmin)]

/-! ## The PDF report view (modelled from the spec)

Only the test file `tests/test_pdf_report.py` for this view is among the
sources; the view itself and the URLconf are not.  They are modelled from
the spec: "exposes results through ... per-document report pages" and "a
test case exercising a report view keyed by a UUID". -/

/-- A stored `PDFDocument` row, restricted to the fields the report view
and its tests observe. -/
structure PDFDocumentRec where
  id : String
  original_filename : String
deriving DecidableEq

def isHexChar (c : Char) : Bool :=
  c.isDigit || (decide ('a' ≤ c) && decide (c ≤ 'f'))

/-- Split a character list at every dash. -/
def splitDash : List Char → List (List Char)
  | [] => [[]]
  | c :: rest =>
      let r := splitDash rest
      if c = '-' then [] :: r
      else
        match r with
        | [] => [[c]]
        | g :: gs => (c :: g) :: gs

/-- Django's `<uuid:pk>` path converter pattern: five dash-separated
lowercase-hex groups of lengths 8, 4, 4, 4, 12. -/
def isUUIDString (s : String) : Bool :=
  let parts := splitDash s.data
  decide (parts.map List.length = [8, 4, 4, 4, 12]) &&
    parts.all (fun p => p.all isHexChar)

/-- Modelled from the spec: the per-document report view (absent from the
sources) looks the primary key up among the stored `PDFDocument` rows,
rendering a 200 page that shows the document's `original_filename`, and a
404 when no row matches. -/
def pdf_report_view (db : List PDFDocumentRec) (pk : String) : Nat × String :=
  match db.find? (fun d => d.id = pk) with
  | some doc => (200, "<html>Report for " ++ doc.original_filename ++ "</html>")
  | none => (404, "Not Found")

/-- Modelled from the spec: URL dispatch for `pdf_report_url` (the URLconf
is absent from the sources); the `<uuid:pk>` converter only matches a
well-formed UUID segment, anything else falls through to a 404. -/
def route_pdf_report (db : List PDFDocumentRec) (seg : String) : Nat × String :=
  if isUUIDString seg then pdf_report_view db seg else (404, "Not Found")

/-- The substring relation `assertContains` checks on a response body. -/
def strContains (haystack needle : String) : Prop :=
  ∃ pre post, haystack = pre ++ needle ++ post

/-! ## Helper lemmas about the filesystem model -/

theorem addDir_files (fs : FS) (d : Path) : (addDir fs d).files = fs.files := by
  unfold addDir
  split <;> rfl

theorem foldl_addDir_files (l : List Path) (fs : FS) :
    (l.foldl addDir fs).files = fs.files := by
  induction l generalizing fs with
  | nil => rfl
  | cons d t ih => simpa [List.foldl, addDir_files] using ih (addDir fs d)

theorem mkdirParents_files (fs : FS) (p : Path) :
    (mkdirParents fs p).files = fs.files :=
  foldl_addDir_files _ fs

theorem mem_dirs_addDir (fs : FS) (d e : Path) (h : e ∈ fs.dirs) :
    e ∈ (addDir fs d).dirs := by
  unfold addDir
  split
  · exact h
  · exact List.mem_append_left _ h

theorem self_mem_addDir (fs : FS) (d : Path) : d ∈ (addDir fs d).dirs := by
  unfold addDir
  split
  · assumption
  · exact List.mem_append_right _ (List.mem_singleton.mpr rfl)

theorem mem_dirs_foldl_addDir (l : List Path) (fs : FS) (e : Path)
    (h : e ∈ fs.dirs) : e ∈ (l.foldl addDir fs).dirs := by
  induction l generalizing fs with
  | nil => exact h
  | cons d t ih => exact ih (addDir fs d) (mem_dirs_addDir fs d e h)

theorem mem_list_mem_foldl_addDir (l : List Path) (fs : FS) (d : Path)
    (h : d ∈ l) : d ∈ (l.foldl addDir fs).dirs := by
  induction l generalizing fs with
  | nil => cases h
  | cons a t ih =>
      rcases List.mem_cons.mp h with h1 | h2
      · subst h1
        exact mem_dirs_foldl_addDir t (addDir fs d) d (self_mem_addDir fs d)
      · exact ih (addDir fs a) h2

theorem addDir_of_mem (fs : FS) (d : Path) (h : d ∈ fs.dirs) : addDir fs d = fs := by
  unfold addDir
  simp [h]

theorem foldl_addDir_noop (l : List Path) (fs : FS)
    (h : ∀ d ∈ l, d ∈ fs.dirs) : l.foldl addDir fs = fs := by
  induction l with
  | nil => rfl
  | cons a t ih =>
      have ha : addDir fs a = fs := addDir_of_mem fs a (h a (List.mem_cons_self a t))
      simp only [List.foldl, ha]
      exact ih fun d hd => h d (List.mem_cons_of_mem a hd)

theorem mkdirParents_idem (fs : FS) (p : Path) :
    mkdirParents (mkdirParents fs p) p = mkdirParents fs p :=
  foldl_addDir_noop _ _ fun d hd => mem_list_mem_foldl_addDir _ fs d hd

theorem addDir_write_text_comm (fs : FS) (d p : Path) (c : String) :
    addDir (write_text fs p c) d = write_text (addDir fs d) p c := by
  by_cases h : d ∈ fs.dirs <;> simp [addDir, write_text, h]

theorem foldl_addDir_write_text_comm (l : List Path) (fs : FS) (p : Path) (c : String) :
    l.foldl addDir (write_text fs p c) = write_text (l.foldl addDir fs) p c := by
  induction l generalizing fs with
  | nil => rfl
  | cons a t ih =>
      simp only [List.foldl, addDir_write_text_comm]
      exact ih (addDir fs a)

theorem mkdirParents_write_text_comm (fs : FS) (q p : Path) (c : String) :
    mkdirParents (write_text fs p c) q = write_text (mkdirParents fs q) p c :=
  foldl_addDir_write_text_comm _ fs p c

theorem setAssoc_idem (l : List (Path × String)) (p : Path) (c : String) :
    setAssoc (setAssoc l p c) p c = setAssoc l p c := by
  induction l with
  | nil => simp [setAssoc]
  | cons e t ih =>
      by_cases h : e.1 = p
      · simp [setAssoc, h]
      · simp [setAssoc, h, ih]

theorem write_text_idem (fs : FS) (p : Path) (c : String) :
    write_text (write_text fs p c) p c = write_text fs p c := by
  unfold write_text
  simp [setAssoc_idem]

theorem find_setAssoc (l : List (Path × String)) (p : Path) (c : String) :
    (setAssoc l p c).find? (fun e => e.1 = p) = some (p, c) := by
  induction l with
  | nil => simp [setAssoc, List.find?]
  | cons e t ih =>
      by_cases h : e.1 = p
      · simp [setAssoc, h, List.find?]
      · simp [setAssoc, h, List.find?, ih]

theorem readFile_write_text (fs : FS) (p : Path) (c : String) :
    readFile (write_text fs p c) p = some c := by
  unfold readFile write_text
  simp [find_setAssoc]

theorem readFile_save_pattern_header (fs : FS) (p : Path) (c : String) :
    readFile (save_pattern_header c p fs) p = some c :=
  readFile_write_text _ p c

theorem save_pattern_header_double (fs : FS) (p : Path) (c : String) :
    save_pattern_header c p (save_pattern_header c p fs) = save_pattern_header c p fs := by
  unfold save_pattern_header
  rw [mkdirParents_write_text_comm, mkdirParents_idem, write_text_idem]

theorem getEnv_append_single (env : Env) (k v : String)
    (h : getEnv env k = none) : getEnv (env ++ [(k, v)]) k = some v := by
  induction env with
  | nil => simp [getEnv, List.find?]
  | cons e t ih =>
      by_cases he : e.1 = k
      · simp [getEnv, List.find?, he] at h
      · simp only [getEnv, List.cons_append, List.find?, he, decide_False] at h ⊢
        exact ih h

/-! ## Concrete fixtures used by the witness theorems -/

def sampleSettings : Settings := { PATTERN_HEADER_URL := some "u" }

def sampleOpts : Options := { url := PyValue.pynone, dry_run := false }

def sampleDryOpts : Options := { url := PyValue.pynone, dry_run := true }

def okNet : Net := fun _ => FetchOutcome.response { status_code := 200, text := "hi" }

def errNet : Net := fun _ => FetchOutcome.httpError "boom"

def oddNet : Net := fun _ => FetchOutcome.otherError "weird"

def sampleFile : Path := ["app", "management", "commands", "update_pattern_header.py"]

def emptyFS : FS := { dirs := [], files := [] }

/-! ## Claim theorems -/

/-- C1: whenever the fetch succeeds and --dry-run is not set, `handle`
writes exactly the fetched response text to the resolved target path, so
after `handle` returns the target file's content equals the text returned
by `fetch_pattern_header`. -/
theorem C1_handle_writes_fetched_text
    (settings : Settings) (net : Net) (opts : Options)
    (command_file : Path) (fs0 : FS) (content : String)
    (hurl : effective_url settings opts ≠ "")
    (hfetch : fetch_pattern_header net (effective_url settings opts) = PyResult.ok content)
    (hdry : opts.dry_run = false) :
    readFile (handle settings net opts command_file fs0).fs
      (resolve_target_path command_file) = some content := by
  simp [handle, hurl, hfetch, hdry, readFile_save_pattern_header]

theorem C1_witness :
    effective_url sampleSettings sampleOpts ≠ "" ∧
    fetch_pattern_header okNet (effective_url sampleSettings sampleOpts) = PyResult.ok "hi" ∧
    sampleOpts.dry_run = false ∧
    readFile (handle sampleSettings okNet sampleOpts sampleFile emptyFS).fs
      (resolve_target_path sampleFile) = some "hi" :=
  ⟨by decide, by decide, rfl,
    C1_handle_writes_fetched_text sampleSettings okNet sampleOpts sampleFile emptyFS "hi"
      (by decide) (by decide) rfl⟩

/-- C2: when the fetch raises an `httpx.HTTPError`, `handle` catches it,
writes an error message to stdout and returns with the filesystem
unchanged and no write performed; an exception of any other type raised by
the fetch is not caught and propagates out of `handle`. -/
theorem C2_http_error_caught_others_propagate
    (settings : Settings) (net : Net) (opts : Options)
    (command_file : Path) (fs0 : FS)
    (hurl : effective_url settings opts ≠ "") :
    (∀ m, fetch_pattern_header net (effective_url settings opts) = PyResult.exn true m →
      (handle settings net opts command_file fs0).stdout =
        [StyledLine.plain ("Fetching pattern header from: " ++ effective_url settings opts),
         StyledLine.styleError ("Failed to fetch: " ++ m)] ∧
      (handle settings net opts command_file fs0).fs = fs0 ∧
      (handle settings net opts command_file fs0).writeCount = 0 ∧
      (handle settings net opts command_file fs0).uncaught = none) ∧
    (∀ m, fetch_pattern_header net (effective_url settings opts) = PyResult.exn false m →
      (handle settings net opts command_file fs0).fs = fs0 ∧
      (handle settings net opts command_file fs0).writeCount = 0 ∧
      (handle settings net opts command_file fs0).uncaught = some m) := by
  constructor <;> intro m hm <;> simp [handle, hurl, hm]

theorem C2_witness :
    effective_url sampleSettings sampleOpts ≠ "" ∧
    fetch_pattern_header errNet (effective_url sampleSettings sampleOpts) =
      PyResult.exn true "boom" ∧
    ((handle sampleSettings errNet sampleOpts sampleFile emptyFS).stdout =
        [StyledLine.plain ("Fetching pattern header from: " ++
            effective_url sampleSettings sampleOpts),
         StyledLine.styleError ("Failed to fetch: " ++ "boom")] ∧
      (handle sampleSettings errNet sampleOpts sampleFile emptyFS).fs = emptyFS ∧
      (handle sampleSettings errNet sampleOpts sampleFile emptyFS).writeCount = 0 ∧
      (handle sampleSettings errNet sampleOpts sampleFile emptyFS).uncaught = none) :=
  ⟨by decide, by decide,
    (C2_http_error_caught_others_propagate sampleSettings errNet sampleOpts sampleFile emptyFS
      (by decide)).1 "boom" (by decide)⟩

/-- C3: for every URL whose GET completes with an HTTP response,
`fetch_pattern_header` returns the response body text exactly when the
response status is a success, and raises via `raise_for_status` (an
`httpx.HTTPError`) for every non-success status. -/
theorem C3_fetch_text_iff_success (net : Net) (url : String) (r : Response)
    (hresp : net url = FetchOutcome.response r) :
    (fetch_pattern_header net url = PyResult.ok r.text ↔ is_success r = true) ∧
    (is_success r = false →
      fetch_pattern_header net url =
        PyResult.exn true ("HTTPStatusError for status " ++ toString r.status_code)) := by
  unfold fetch_pattern_header
  rw [hresp]
  cases h : is_success r <;> simp [h]

theorem C3_witness :
    okNet "u" = FetchOutcome.response { status_code := 200, text := "hi" } ∧
    (fetch_pattern_header okNet "u" = PyResult.ok "hi" ↔
      is_success { status_code := 200, text := "hi" } = true) :=
  ⟨rfl, (C3_fetch_text_iff_success okNet "u" { status_code := 200, text := "hi" } rfl).1⟩

/-- C4: every invocation of `handle` performs at most one HTTP GET and at
most one file write, and exactly one of each when the URL is set, the
fetch succeeds and --dry-run is not given. -/
theorem C4_effect_counts (settings : Settings) (net : Net) (opts : Options)
    (command_file : Path) (fs0 : FS) :
    (handle settings net opts command_file fs0).getCount ≤ 1 ∧
    (handle settings net opts command_file fs0).writeCount ≤ 1 ∧
    (effective_url settings opts ≠ "" → opts.dry_run = false →
      (∃ content,
        fetch_pattern_header net (effective_url settings opts) = PyResult.ok content) →
      (handle settings net opts command_file fs0).getCount = 1 ∧
      (handle settings net opts command_file fs0).writeCount = 1) := by
  by_cases hurl : effective_url settings opts = ""
  · simp [handle, hurl]
  · cases hf : fetch_pattern_header net (effective_url settings opts) with
    | ok content => cases hdry : opts.dry_run <;> simp [handle, hurl, hf, hdry]
    | exn b m => cases b <;> simp [handle, hurl, hf]

theorem C4_witness :
    effective_url sampleSettings sampleOpts ≠ "" ∧
    sampleOpts.dry_run = false ∧
    (∃ content,
      fetch_pattern_header okNet (effective_url sampleSettings sampleOpts) =
        PyResult.ok content) ∧
    ((handle sampleSettings okNet sampleOpts sampleFile emptyFS).getCount = 1 ∧
      (handle sampleSettings okNet sampleOpts sampleFile emptyFS).writeCount = 1) :=
  ⟨by decide, rfl, ⟨"hi", by decide⟩,
    (C4_effect_counts sampleSettings okNet sampleOpts sampleFile emptyFS).2.2
      (by decide) rfl ⟨"hi", by decide⟩⟩

/-- C5: the UUID-keyed PDF report view returns 200 with a body containing
the document's `original_filename` for the UUID of an existing
`PDFDocument`, 404 for a well-formed UUID matching no document, and 404
for a malformed path segment. -/
theorem C5_report_view_statuses (db : List PDFDocumentRec) (pk seg : String)
    (doc : PDFDocumentRec) :
    (isUUIDString pk = true → db.find? (fun d => d.id = pk) = some doc →
      (route_pdf_report db pk).1 = 200 ∧
      strContains (route_pdf_report db pk).2 doc.original_filename) ∧
    (isUUIDString pk = true → db.find? (fun d => d.id = pk) = none →
      (route_pdf_report db pk).1 = 404) ∧
    (isUUIDString seg = false → (route_pdf_report db seg).1 = 404) := by
  refine ⟨fun hu hf => ?_, fun hu hf => ?_, fun hseg => ?_⟩
  · constructor
    · simp [route_pdf_report, pdf_report_view, hu, hf]
    · simp only [route_pdf_report, pdf_report_view, hu, if_true, hf]
      exact ⟨"<html>Report for ", "</html>", rfl⟩
  · simp [route_pdf_report, pdf_report_view, hu, hf]
  · simp [route_pdf_report, hseg]

theorem C5_witness :
    isUUIDString "123e4567-e89b-42d3-a456-426614174000" = true ∧
    [PDFDocumentRec.mk "123e4567-e89b-42d3-a456-426614174000" "test.pdf"].find?
        (fun d => d.id = "123e4567-e89b-42d3-a456-426614174000") =
      some (PDFDocumentRec.mk "123e4567-e89b-42d3-a456-426614174000" "test.pdf") ∧
    isUUIDString "not-a-uuid" = false ∧
    ((route_pdf_report [PDFDocumentRec.mk "123e4567-e89b-42d3-a456-426614174000" "test.pdf"]
        "123e4567-e89b-42d3-a456-426614174000").1 = 200 ∧
      strContains
        (route_pdf_report [PDFDocumentRec.mk "123e4567-e89b-42d3-a456-426614174000" "test.pdf"]
          "123e4567-e89b-42d3-a456-426614174000").2 "test.pdf") ∧
    (route_pdf_report [PDFDocumentRec.mk "123e4567-e89b-42d3-a456-426614174000" "test.pdf"]
        "not-a-uuid").1 = 404 :=
  ⟨by decide, by decide, by decide,
    (C5_report_view_statuses
        [PDFDocumentRec.mk "123e4567-e89b-42d3-a456-426614174000" "test.pdf"]
        "123e4567-e89b-42d3-a456-426614174000" "not-a-uuid"
        (PDFDocumentRec.mk "123e4567-e89b-42d3-a456-426614174000" "test.pdf")).1
      (by decide) (by decide),
    (C5_report_view_statuses
        [PDFDocumentRec.mk "123e4567-e89b-42d3-a456-426614174000" "test.pdf"]
        "123e4567-e89b-42d3-a456-426614174000" "not-a-uuid"
        (PDFDocumentRec.mk "123e4567-e89b-42d3-a456-426614174000" "test.pdf")).2.2
      (by decide)⟩

/-- C6: admin.py registers exactly the three models PDFDocument,
VeraPDFResult and OpenRouterSummary, each with its own distinct ModelAdmin
subclass, and nothing else. -/
theorem C6_admin_three_models :
    admin_registry.map Prod.fst = ["PDFDocument", "VeraPDFResult", "OpenRouterSummary"] ∧
    admin_registry.length = 3 ∧
    (admin_registry.map Prod.snd).Nodup := by
  refine ⟨rfl, rfl, ?_⟩
  decide

/-- C7: `manage.py`'s `main()` sets DJANGO_SETTINGS_MODULE to
'config.settings' only when it is unset, leaves an existing value (indeed
the whole environment) unchanged, and delegates to
`execute_from_command_line` with `sys.argv`. -/
theorem C7_manage_main_env (env : Env) (argv : List String) :
    (∀ v, getEnv env "DJANGO_SETTINGS_MODULE" = some v →
      (manage_main env argv).env = env) ∧
    (getEnv env "DJANGO_SETTINGS_MODULE" = none →
      getEnv (manage_main env argv).env "DJANGO_SETTINGS_MODULE" =
        some "config.settings") ∧
    (manage_main env argv).executed_argv = argv := by
  refine ⟨fun v hv => ?_, fun hn => ?_, rfl⟩
  · simp [manage_main, setdefault, hv]
  · simp only [manage_main, setdefault, hn, Option.isSome_none, Bool.false_eq_true,
      if_false]
    exact getEnv_append_single env _ _ hn

theorem C7_witness :
    getEnv [("DJANGO_SETTINGS_MODULE", "custom.settings")] "DJANGO_SETTINGS_MODULE" =
      some "custom.settings" ∧
    (manage_main [("DJANGO_SETTINGS_MODULE", "custom.settings")] ["manage.py", "test"]).env =
      [("DJANGO_SETTINGS_MODULE", "custom.settings")] ∧
    getEnv ([] : Env) "DJANGO_SETTINGS_MODULE" = none ∧
    getEnv (manage_main ([] : Env) ["manage.py"]).env "DJANGO_SETTINGS_MODULE" =
      some "config.settings" :=
  ⟨by decide,
    (C7_manage_main_env [("DJANGO_SETTINGS_MODULE", "custom.settings")]
      ["manage.py", "test"]).1 "custom.settings" (by decide),
    by decide,
    (C7_manage_main_env ([] : Env) ["manage.py"]).2.1 (by decide)⟩

/-- C8: with --dry-run set and a successful fetch, `handle` writes the
'Dry run - not saving' warning and returns without saving, leaving the
filesystem unchanged. -/
theorem C8_dry_run_no_save (settings : Settings) (net : Net) (opts : Options)
    (command_file : Path) (fs0 : FS) (content : String)
    (hurl : effective_url settings opts ≠ "")
    (hfetch : fetch_pattern_header net (effective_url settings opts) = PyResult.ok content)
    (hdry : opts.dry_run = true) :
    (handle settings net opts command_file fs0).stdout =
      [StyledLine.plain ("Fetching pattern header from: " ++ effective_url settings opts),
       StyledLine.plain ("Fetched " ++ toString content.length ++ " characters"),
       StyledLine.warning "Dry run - not saving"] ∧
    (handle settings net opts command_file fs0).fs = fs0 ∧
    (handle settings net opts command_file fs0).writeCount = 0 := by
  simp [handle, hurl, hfetch, hdry]

theorem C8_witness :
    effective_url sampleSettings sampleDryOpts ≠ "" ∧
    fetch_pattern_header okNet (effective_url sampleSettings sampleDryOpts) =
      PyResult.ok "hi" ∧
    sampleDryOpts.dry_run = true ∧
    ((handle sampleSettings okNet sampleDryOpts sampleFile emptyFS).fs = emptyFS ∧
      (handle sampleSettings okNet sampleDryOpts sampleFile emptyFS).writeCount = 0) :=
  ⟨by decide, by decide, rfl,
    (C8_dry_run_no_save sampleSettings okNet sampleDryOpts sampleFile emptyFS "hi"
      (by decide) (by decide) rfl).2⟩

/-- C9: the command's URL precedence: a non-empty string --url wins over
settings.PATTERN_HEADER_URL; a non-string (or absent) --url falls back to
the setting; and when the resulting URL is empty `handle` prints an error
and returns before any HTTP request or file write. -/
theorem C9_url_precedence (settings : Settings) (net : Net) (opts : Options)
    (command_file : Path) (fs0 : FS) :
    (∀ s, opts.url = PyValue.str s → s ≠ "" → effective_url settings opts = s) ∧
    (opts.url = PyValue.pynone ∨ opts.url = PyValue.other →
      effective_url settings opts = getPatternHeaderURL settings) ∧
    (effective_url settings opts = "" →
      (handle settings net opts command_file fs0).stdout =
        [StyledLine.styleError
          "PATTERN_HEADER_URL not set in settings and --url not provided"] ∧
      (handle settings net opts command_file fs0).fs = fs0 ∧
      (handle settings net opts command_file fs0).getCount = 0 ∧
      (handle settings net opts command_file fs0).writeCount = 0) := by
  refine ⟨fun s hs hne => ?_, fun h => ?_, fun h0 => ?_⟩
  · simp [effective_url, url_override, hs, hne]
  · rcases h with h | h <;> simp [effective_url, url_override, h]
  · simp [handle, h0]

theorem C9_witness :
    (Options.mk (PyValue.str "override") false).url = PyValue.str "override" ∧
    "override" ≠ "" ∧
    effective_url sampleSettings (Options.mk (PyValue.str "override") false) = "override" ∧
    effective_url (Settings.mk none) sampleOpts = "" ∧
    ((handle (Settings.mk none) okNet sampleOpts sampleFile emptyFS).getCount = 0 ∧
      (handle (Settings.mk none) okNet sampleOpts sampleFile emptyFS).writeCount = 0) :=
  ⟨rfl, by decide,
    (C9_url_precedence sampleSettings okNet (Options.mk (PyValue.str "override") false)
        sampleFile emptyFS).1 "override" rfl (by decide),
    by decide,
    ((C9_url_precedence (Settings.mk none) okNet sampleOpts sampleFile emptyFS).2.2
      (by decide)).2.2⟩

/-- C10: `save_pattern_header` is idempotent and total with respect to the
directory structure: it creates every missing ancestor of the target's
parent (existing directories are preserved, never an error), writes the
content, and running it twice with the same arguments leaves the same
filesystem state as running it once. -/
theorem C10_save_idempotent_total (content : String) (p : Path) (fs : FS) :
    save_pattern_header content p (save_pattern_header content p fs) =
      save_pattern_header content p fs ∧
    (∀ d ∈ pathAncestors (parent p), d ∈ (save_pattern_header content p fs).dirs) ∧
    (∀ d ∈ fs.dirs, d ∈ (save_pattern_header content p fs).dirs) ∧
    readFile (save_pattern_header content p fs) p = some content := by
  refine ⟨save_pattern_header_double fs p content, fun d hd => ?_, fun d hd => ?_,
    readFile_save_pattern_header fs p content⟩
  · exact mem_list_mem_foldl_addDir (pathAncestors (parent p)) fs d hd
  · exact mem_dirs_foldl_addDir (pathAncestors (parent p)) fs d hd

theorem C10_witness :
    ["a"] ∈ pathAncestors (parent ["a", "b", "f.txt"]) ∧
    (save_pattern_header "x" ["a", "b", "f.txt"]
        (save_pattern_header "x" ["a", "b", "f.txt"] emptyFS) =
      save_pattern_header "x" ["a", "b", "f.txt"] emptyFS) ∧
    ["a"] ∈ (save_pattern_header "x" ["a", "b", "f.txt"] emptyFS).dirs ∧
    readFile (save_pattern_header "x" ["a", "b", "f.txt"] emptyFS) ["a", "b", "f.txt"] =
      some "x" :=
  ⟨by decide,
    (C10_save_idempotent_total "x" ["a", "b", "f.txt"] emptyFS).1,
    (C10_save_idempotent_total "x" ["a", "b", "f.txt"] emptyFS).2.1 ["a"] (by decide),
    (C10_save_idempotent_total "x" ["a", "b", "f.txt"] emptyFS).2.2.2⟩

end PdfChecker
